import Mathlib

/-!
Verification of the Sentinel audit decision engine (src/api/index.py).

The engine receives a parsed JSON payload, scans its Python `str()` rendering
for banned keywords, then checks refund-like fields against a numeric limit,
and returns an APPROVED/BLOCKED verdict.  This file gives a shallow embedding
of the engine (`check_for_banned_keywords`, `check_refund_amount`, and the
post-parse body of `audit_request`) and proves the specified properties.

Modelling conventions:
* JSON numbers are modelled as rationals (`ℚ`); integer-valued numbers stand
  for Python ints.  Python float printing/rounding subtleties (shortest
  round-trip repr, banker's rounding ties) are outside the rational model;
  all concrete inputs used below have exact finite-decimal values.
* Python exceptions are modelled with `Except Unit`: `.error ()` marks an
  uncaught `TypeError` escaping the engine.
* Case-folding models `str.lower()` on ASCII text (the whole policy list is
  ASCII).
-/

/-- A parsed JSON value tree as handed to the engine by `request.get_json()`.
Dictionaries keep insertion order; after a JSON parse the keys of a Python
dict are distinct, and lookup below returns the first binding. -/
inductive Value where
  | null
  | bool (b : Bool)
  | num (q : ℚ)
  | str (s : String)
  | list (xs : List Value)
  | dict (xs : List (String × Value))

/-- The verdict carried in the response body: `approved` has no reason field,
`blocked` carries the reason string. -/
inductive Verdict where
  | approved
  | blocked (reason : String)
deriving DecidableEq

/-- `BANNED_KEYWORDS` from src/api/index.py lines 26-37. -/
def BANNED_KEYWORDS : List String :=
  ["DROP TABLE", "DELETE FROM", "refund > 500", "angry", "unauthorized",
   "exec(", "eval(", "wasting our time", "shut up", "idiot"]

/-- `MAX_REFUND_AMOUNT = 500` from src/api/index.py line 42. -/
def MAX_REFUND_AMOUNT : ℚ := 500

/-- `refund_fields = ['refund_amount', 'refund', 'amount']`
(src/api/index.py line 91). -/
def refund_fields : List String := ["refund_amount", "refund", "amount"]

/-- Models Python `str.lower()` (ASCII case folding), character by
character over the underlying list. -/
def pyLower (s : String) : String := String.mk (s.data.map Char.toLower)

/-- `needle.isPrefixOf hay || ...` scan: models Python `needle in hay`
substring containment on the underlying character lists. -/
def charsContain (needle : List Char) : List Char → Bool
  | [] => needle.isEmpty
  | c :: rest => needle.isPrefixOf (c :: rest) || charsContain needle rest

/-- Models the Python substring test `needle in hay` for strings. -/
def strContains (hay needle : String) : Bool := charsContain needle.data hay.data

/-- The keyword loop of `check_for_banned_keywords` (src/api/index.py
lines 64-69): returns `(True, keyword)` on the first banned keyword whose
lowercase form occurs in the (already lowercased) text, else `(False, None)`. -/
def scanKeywords (dataLower : String) : List String → Bool × Option String
  | [] => (false, none)
  | keyword :: rest =>
    if strContains dataLower (pyLower keyword) then (true, some keyword)
    else scanKeywords dataLower rest

/-- `check_for_banned_keywords` (src/api/index.py lines 44-71). -/
def check_for_banned_keywords (dataStr : String) : Bool × Option String :=
  scanKeywords (pyLower dataStr) BANNED_KEYWORDS

/-- Numeric value of a decimal digit character. -/
def digitVal (c : Char) : Nat := c.toNat - 48

/-- Value of a digit string, most significant digit first. -/
def digitsToNat (cs : List Char) : Nat :=
  cs.foldl (fun acc c => acc * 10 + digitVal c) 0

/-- `10 ^ n` as a rational. -/
def pow10 (n : Nat) : ℚ := (10 : ℚ) ^ n

/-- Scales a rational by `10 ^ e` for a signed exponent. -/
def applyExp (q : ℚ) : Int → ℚ
  | .ofNat n => q * pow10 n
  | .negSucc n => q / pow10 (n + 1)

/-- Parses the exponent digits (after `e`/`E`), with optional sign. -/
def parseExpTail (cs : List Char) : Option Int :=
  let (neg, ds) :=
    match cs with
    | c :: rest =>
      if c == '-' then (true, rest)
      else if c == '+' then (false, rest)
      else (false, cs)
    | [] => (false, ([] : List Char))
  if ds.isEmpty then none
  else if ds.all Char.isDigit then
    some (if neg then -(digitsToNat ds : Int) else (digitsToNat ds : Int))
  else none

/-- Parses an optional exponent suffix: empty means exponent `0`. -/
def parseExpPart : List Char → Option Int
  | [] => some 0
  | c :: rest => if c == 'e' || c == 'E' then parseExpTail rest else none

/-- Parses an unsigned decimal mantissa with optional fraction and exponent. -/
def parseMantissaAndExp (cs : List Char) : Option ℚ :=
  let (intPart, rest) := cs.span Char.isDigit
  match rest with
  | '.' :: rest2 =>
    let (fracPart, rest3) := rest2.span Char.isDigit
    if intPart.isEmpty && fracPart.isEmpty then none
    else
      match parseExpPart rest3 with
      | some e =>
        some (applyExp ((digitsToNat (intPart ++ fracPart) : ℚ) / pow10 fracPart.length) e)
      | none => none
  | _ =>
    if intPart.isEmpty then none
    else
      match parseExpPart rest with
      | some e => some (applyExp ((digitsToNat intPart : ℚ)) e)
      | none => none

/-- Models Python `float(s)` on a string: strips surrounding whitespace, then
accepts an optionally signed decimal literal with optional fraction and
exponent, returning `none` where Python raises `ValueError`.  Not modelled
(never produced by the concrete inputs used here): `inf`/`nan` literals,
digit-group underscores, and non-ASCII digits. -/
def parseNumericString (s : String) : Option ℚ :=
  let cs := ((s.data.dropWhile Char.isWhitespace).reverse.dropWhile Char.isWhitespace).reverse
  match cs with
  | '-' :: rest => (parseMantissaAndExp rest).map (fun q => -q)
  | '+' :: rest => parseMantissaAndExp rest
  | _ => parseMantissaAndExp cs

/-- Models Python `float(v)` on a JSON value: numbers pass through, booleans
coerce to 0/1, numeric strings are parsed; `None`, lists and dicts raise
`ValueError`/`TypeError`, i.e. yield `none` here. -/
def pyFloat : Value → Option ℚ
  | .num q => some q
  | .bool b => some (if b then 1 else 0)
  | .str s => parseNumericString s
  | .null => none
  | .list _ => none
  | .dict _ => none

/-- First binding for a key, modelling Python `data[field]` on a dict. -/
def dictLookup (xs : List (String × Value)) (field : String) : Option Value :=
  (xs.find? (fun kv => kv.1 == field)).map (fun kv => kv.2)

/-- Models the membership test `field in data` (src/api/index.py line 94),
which is OUTSIDE the try/except: on dicts it tests keys, on strings it is a
substring test, on lists it tests elements (a string equals only an equal
string), and on numbers, booleans and `None` it raises `TypeError`
(`.error ()` — uncaught). -/
def fieldContains (data : Value) (field : String) : Except Unit Bool :=
  match data with
  | .dict xs => .ok (xs.any (fun kv => kv.1 == field))
  | .str s => .ok (strContains s field)
  | .list xs =>
    .ok (xs.any (fun v =>
      match v with
      | .str t => t == field
      | _ => false))
  | .num _ => .error ()
  | .bool _ => .error ()
  | .null => .error ()

/-- Models the try-block body `amount = float(data[field])`
(src/api/index.py line 96): on a dict the value is looked up and coerced; on
a string or list the subscript `data[field]` raises `TypeError`, which the
`except (ValueError, TypeError)` clause catches — so the field yields `none`
and the loop moves on. -/
def coerceField (data : Value) (field : String) : Option ℚ :=
  match data with
  | .dict xs => (dictLookup xs field).bind pyFloat
  | _ => none

/-- The field loop of `check_refund_amount` (src/api/index.py lines 93-102).
Note the fall-through: a present field whose value coerces to an amount
within the limit does NOT return — the loop proceeds to the next field name,
exactly as a failed coercion does. -/
def checkRefundGo (data : Value) : List String → Except Unit (Bool × Option ℚ)
  | [] => .ok (false, none)
  | field :: rest =>
    match fieldContains data field with
    | .error e => .error e
    | .ok true =>
      match coerceField data field with
      | some amount =>
        if amount > MAX_REFUND_AMOUNT then .ok (true, some amount)
        else checkRefundGo data rest
      | none => checkRefundGo data rest
    | .ok false => checkRefundGo data rest

/-- `check_refund_amount` (src/api/index.py lines 73-104). -/
def check_refund_amount (data : Value) : Except Unit (Bool × Option ℚ) :=
  checkRefundGo data refund_fields

/-- Models CPython `repr` of a string holding no quote, backslash, or
non-printable characters (single quotes around the raw text).  The
serialization enters every claim only through substring hypotheses, so the
escape rules for the remaining characters are not needed. -/
def pyRepr (s : String) : String := "\x27" ++ s ++ "\x27"

mutual

/-- Models Python `repr` of a parsed JSON value (what `str` applies to every
element nested inside a container): `None`/`True`/`False` keywords, numbers
in decimal, strings quoted, lists in `[...]` and dicts in brace pairs with
`: ` and `, ` separators.  An integer-valued `num` prints as a Python int;
a non-integer rational prints as `num/den` (a stand-in for CPython float
repr, which has no exact rational rendering — no claim depends on it). -/
def pyReprV : Value → String
  | .null => "None"
  | .bool b => if b then "True" else "False"
  | .num q => if q.den == 1 then toString q.num else toString q.num ++ "/" ++ toString q.den
  | .str s => pyRepr s
  | .list xs => "[" ++ pyReprVList xs ++ "]"
  | .dict xs => "\x7b" ++ pyReprVPairs xs ++ "\x7d"

/-- Comma-joined `repr`s of list elements. -/
def pyReprVList : List Value → String
  | [] => ""
  | [v] => pyReprV v
  | v :: rest => pyReprV v ++ ", " ++ pyReprVList rest

/-- Comma-joined `key: value` renderings of dict items. -/
def pyReprVPairs : List (String × Value) → String
  | [] => ""
  | [(k, v)] => pyRepr k ++ ": " ++ pyReprV v
  | (k, v) :: rest => pyRepr k ++ ": " ++ pyReprV v ++ ", " ++ pyReprVPairs rest

end

/-- Models `data_str = str(data)` (src/api/index.py line 161): `str` of a
top-level Python string is the string itself; every other value renders via
`repr`. -/
def pyStr (data : Value) : String :=
  match data with
  | .str s => s
  | v => pyReprV v

/-- Models the f-string conversion `{amount:.2f}`: the amount rounded to
cents — the floor division computes `⌊q·100 + 1/2⌋ = ⌊(200·num + den)/(2·den)⌋`
— and printed with exactly two decimal places.  (CPython rounds ties on the
underlying binary float to even; no concrete input below sits on a
half-cent tie.) -/
def formatTwoDec (q : ℚ) : String :=
  let c : Int := Int.fdiv (q.num * 200 + (q.den : Int)) ((q.den : Int) * 2)
  let sign := if c < 0 then "-" else ""
  let n := c.natAbs
  let frac := n % 100
  sign ++ toString (n / 100) ++ "." ++ (if frac < 10 then "0" ++ toString frac else toString frac)

/-- Models the f-string interpolation `{keyword}` on an `Optional[str]`:
Python renders `None` as the text `None`. -/
def fstrOptStr : Option String → String
  | some k => k
  | none => "None"

/-- The blocked reason `f'Banned keyword detected: "{keyword}"'`
(src/api/index.py line 168). -/
def bannedReason (keyword : String) : String :=
  "Banned keyword detected: \x22" ++ keyword ++ "\x22"

/-- The blocked reason
`f'Refund amount ${amount:.2f} exceeds maximum of ${MAX_REFUND_AMOUNT}'`
(src/api/index.py line 178); `MAX_REFUND_AMOUNT` is the int 500, so its
interpolation is the text `500`. -/
def refundReason (amount : ℚ) : String :=
  "Refund amount $" ++ formatTwoDec amount ++ " exceeds maximum of $500"

/-- The audit decision engine: steps 2-5 of `audit_request`
(src/api/index.py lines 155-186), i.e. everything after JSON validation.
`.error ()` marks an uncaught `TypeError` escaping the handler (the
membership test inside `check_refund_amount` is outside its try/except).
The `(true, none)` refund result would make the `:.2f` format raise; it is
provably unreachable (see `checkRefundGo_dict_shape` below). -/
def audit (data : Value) : Except Unit Verdict :=
  match check_for_banned_keywords (pyStr data) with
  | (true, keyword) => .ok (.blocked (bannedReason (fstrOptStr keyword)))
  | (false, _) =>
    match check_refund_amount data with
    | .error e => .error e
    | .ok (true, some amount) => .ok (.blocked (refundReason amount))
    | .ok (true, none) => .error ()
    | .ok (false, _) => .ok .approved

/-- A sequence of POSTs to `/api/audit`: the module state read by the
handler (`BANNED_KEYWORDS`, `MAX_REFUND_AMOUNT`) is constant and never
written, so the embedding of a request sequence has no state to thread —
each request's verdict is `audit` of its payload. -/
def processRequests : List Value → List (Except Unit Verdict)
  | [] => []
  | p :: rest => audit p :: processRequests rest

/-- True when the top-level payload supports the `in` operator without
raising: a dict, a list, or a string. -/
def isContainerTop : Value → Bool
  | .dict _ => true
  | .list _ => true
  | .str _ => true
  | _ => false

/-! ### Concrete payloads used by witnesses and counterexamples -/

/-- Spec scenario A: `{"user":"john_doe","action":"view_profile","refund":50}`. -/
def scenarioA : Value :=
  Value.dict [(("user"), Value.str ("john_doe")), (("action"), Value.str ("view_profile")),
    (("refund"), Value.num (50))]

/-- Spec scenario B: `{"query":"DROP TABLE users","user":"hacker"}`. -/
def scenarioB : Value :=
  Value.dict [(("query"), Value.str ("DROP TABLE users")), (("user"), Value.str ("hacker"))]

/-- Spec scenario C as a binding list:
`{"customer":"alice","refund_amount":750,"reason":"defective"}`. -/
def scenarioC : List (String × Value) :=
  [(("customer"), Value.str ("alice")), (("refund_amount"), Value.num (750)),
   (("reason"), Value.str ("defective"))]

/-- Spec scenario E: `{"refund_amount":"not_a_number","refund":600}`. -/
def scenarioE : Value :=
  Value.dict [(("refund_amount"), Value.str ("not_a_number")), (("refund"), Value.num (600))]

/-- A payload holding both a banned phrase and an over-limit refund field:
`{"msg":"you idiot","refund":600}`. -/
def payloadKwAndRefund : Value :=
  Value.dict [(("msg"), Value.str ("you idiot")), (("refund"), Value.num (600))]

/-- Binding list with a within-limit first alias and an over-limit second
alias: `{"refund_amount":100,"refund":600}`. -/
def mixedAliases : List (String × Value) :=
  [(("refund_amount"), Value.num (100)), (("refund"), Value.num (600))]

/-- Binding list like `mixedAliases` with different amounts:
`{"refund_amount":250,"refund":750}`. -/
def mixedAliases2 : List (String × Value) :=
  [(("refund_amount"), Value.num (250)), (("refund"), Value.num (750))]

/-- A top-level string payload containing the field name `refund` as a
substring. -/
def strWithRefund : Value := Value.str ("please refund me")

/-- A top-level list payload containing the string element `amount`. -/
def listWithAmount : Value := Value.list [Value.str ("amount")]

set_option maxRecDepth 8000

/-! ### Helper lemmas -/

theorem scanKeywords_none (txt : String) (l : List String)
    (h : ∀ k ∈ l, strContains txt (pyLower k) = false) :
    scanKeywords txt l = (false, none) := by
  induction l with
  | nil => rfl
  | cons hd tl ih =>
    have hhd := h hd (List.mem_cons_self hd tl)
    simp only [scanKeywords, hhd, Bool.false_eq_true, if_false]
    exact ih (fun k hk => h k (List.mem_cons_of_mem hd hk))

theorem scanKeywords_first (txt : String) (l : List String) (k : String)
    (hk : k ∈ l) (hmatch : strContains txt (pyLower k) = true) :
    ∃ kw pre post, l = pre ++ kw :: post ∧ strContains txt (pyLower kw) = true
      ∧ (∀ k2 ∈ pre, strContains txt (pyLower k2) = false)
      ∧ scanKeywords txt l = (true, some kw) := by
  induction l with
  | nil => cases hk
  | cons hd tl ih =>
    by_cases hhd : strContains txt (pyLower hd) = true
    · exact ⟨hd, [], tl, rfl, hhd, by simp, by simp [scanKeywords, hhd]⟩
    · have hk2 : k ∈ tl := by
        rcases List.mem_cons.mp hk with rfl | h2
        · exact absurd hmatch hhd
        · exact h2
      obtain ⟨kw, pre, post, hl, hm, hpre, hscan⟩ := ih hk2
      refine ⟨kw, hd :: pre, post, by rw [hl]; rfl, hm, ?_, ?_⟩
      · intro k2 hk3
        rcases List.mem_cons.mp hk3 with rfl | h3
        · exact Bool.not_eq_true _ ▸ Bool.eq_false_iff.mpr (fun hc => hhd hc)
        · exact hpre k2 h3
      · simp only [scanKeywords, Bool.eq_false_iff.mpr (fun hc => hhd hc),
          Bool.false_eq_true, if_false]
        exact hscan

theorem checkRefundGo_cons (data : Value) (f : String) (rest : List String) :
    checkRefundGo data (f :: rest) =
      match fieldContains data f with
      | .error e => .error e
      | .ok true =>
        match coerceField data f with
        | some amount =>
          if amount > MAX_REFUND_AMOUNT then .ok (true, some amount)
          else checkRefundGo data rest
        | none => checkRefundGo data rest
      | .ok false => checkRefundGo data rest := rfl

theorem checkRefundGo_cons_hit (data : Value) (f : String) (rest : List String) (a : ℚ)
    (h1 : fieldContains data f = .ok true) (h2 : coerceField data f = some a)
    (h3 : a > MAX_REFUND_AMOUNT) :
    checkRefundGo data (f :: rest) = .ok (true, some a) := by
  simp only [checkRefundGo_cons, h1, h2, if_pos h3]

theorem checkRefundGo_cons_skip (data : Value) (f : String) (rest : List String) (a : ℚ)
    (h1 : fieldContains data f = .ok true) (h2 : coerceField data f = some a)
    (h3 : ¬ a > MAX_REFUND_AMOUNT) :
    checkRefundGo data (f :: rest) = checkRefundGo data rest := by
  simp only [checkRefundGo_cons, h1, h2, if_neg h3]

theorem checkRefundGo_cons_nocoerce (data : Value) (f : String) (rest : List String)
    (h1 : fieldContains data f = .ok true) (h2 : coerceField data f = none) :
    checkRefundGo data (f :: rest) = checkRefundGo data rest := by
  simp only [checkRefundGo_cons, h1, h2]

theorem checkRefundGo_cons_absent (data : Value) (f : String) (rest : List String)
    (h1 : fieldContains data f = .ok false) :
    checkRefundGo data (f :: rest) = checkRefundGo data rest := by
  simp only [checkRefundGo_cons, h1]

theorem checkRefundGo_str (s : String) (fields : List String) :
    checkRefundGo (Value.str s) fields = .ok (false, none) := by
  induction fields with
  | nil => rfl
  | cons f rest ih =>
    cases hb : strContains s f with
    | true =>
      rw [checkRefundGo_cons_nocoerce (Value.str s) f rest (by simp [fieldContains, hb]) rfl]
      exact ih
    | false =>
      rw [checkRefundGo_cons_absent (Value.str s) f rest (by simp [fieldContains, hb])]
      exact ih

theorem checkRefundGo_list (xs : List Value) (fields : List String) :
    checkRefundGo (Value.list xs) fields = .ok (false, none) := by
  induction fields with
  | nil => rfl
  | cons f rest ih =>
    cases hb : (xs.any (fun v => match v with | .str t => t == f | _ => false)) with
    | true =>
      rw [checkRefundGo_cons_nocoerce (Value.list xs) f rest (by simp [fieldContains, hb]) rfl]
      exact ih
    | false =>
      rw [checkRefundGo_cons_absent (Value.list xs) f rest (by simp [fieldContains, hb])]
      exact ih

theorem checkRefundGo_dict_shape (xs : List (String × Value)) (fields : List String) :
    checkRefundGo (Value.dict xs) fields = .ok (false, none)
    ∨ ∃ a, a > MAX_REFUND_AMOUNT ∧ checkRefundGo (Value.dict xs) fields = .ok (true, some a) := by
  induction fields with
  | nil => exact Or.inl rfl
  | cons f rest ih =>
    cases hb : (xs.any (fun kv => kv.1 == f)) with
    | false =>
      rw [checkRefundGo_cons_absent (Value.dict xs) f rest (by simp [fieldContains, hb])]
      exact ih
    | true =>
      cases hc : coerceField (Value.dict xs) f with
      | none =>
        rw [checkRefundGo_cons_nocoerce (Value.dict xs) f rest (by simp [fieldContains, hb]) hc]
        exact ih
      | some a =>
        by_cases hgt : a > MAX_REFUND_AMOUNT
        · rw [checkRefundGo_cons_hit (Value.dict xs) f rest a (by simp [fieldContains, hb]) hc hgt]
          exact Or.inr ⟨a, hgt, rfl⟩
        · rw [checkRefundGo_cons_skip (Value.dict xs) f rest a (by simp [fieldContains, hb]) hc hgt]
          exact ih

theorem any_of_dictLookup (xs : List (String × Value)) (f : String) (v : Value)
    (h : dictLookup xs f = some v) : (xs.any (fun kv => kv.1 == f)) = true := by
  rw [dictLookup] at h
  rw [List.any_eq_true]
  cases hf : xs.find? (fun kv => kv.1 == f) with
  | none => rw [hf] at h; cases h
  | some kv =>
    have hp := List.find?_some hf
    exact ⟨kv, List.mem_of_find?_eq_some hf, hp⟩

theorem checkRefundGo_dict_viol (xs : List (String × Value)) (fields : List String)
    (f : String) (a : ℚ) (hf : f ∈ fields)
    (hc : coerceField (Value.dict xs) f = some a) (ha : a > MAX_REFUND_AMOUNT) :
    ∃ b, b > MAX_REFUND_AMOUNT ∧ checkRefundGo (Value.dict xs) fields = .ok (true, some b) := by
  induction fields with
  | nil => cases hf
  | cons g rest ih =>
    have hmemg : f = g → (xs.any (fun kv => kv.1 == g)) = true := by
      intro hfg
      rcases Option.bind_eq_some.mp (hfg ▸ hc) with ⟨v, hv, _⟩
      exact any_of_dictLookup xs g v hv
    by_cases hfg : f = g
    · subst hfg
      rw [checkRefundGo_cons_hit (Value.dict xs) f rest a (by simp [fieldContains, hmemg rfl]) hc ha]
      exact ⟨a, ha, rfl⟩
    · have hf2 : f ∈ rest := by
        rcases List.mem_cons.mp hf with rfl | h2
        · exact absurd rfl hfg
        · exact h2
      cases hb : (xs.any (fun kv => kv.1 == g)) with
      | false =>
        rw [checkRefundGo_cons_absent (Value.dict xs) g rest (by simp [fieldContains, hb])]
        exact ih hf2
      | true =>
        cases hcg : coerceField (Value.dict xs) g with
        | none =>
          rw [checkRefundGo_cons_nocoerce (Value.dict xs) g rest (by simp [fieldContains, hb]) hcg]
          exact ih hf2
        | some b =>
          by_cases hgt : b > MAX_REFUND_AMOUNT
          · rw [checkRefundGo_cons_hit (Value.dict xs) g rest b (by simp [fieldContains, hb]) hcg hgt]
            exact ⟨b, hgt, rfl⟩
          · rw [checkRefundGo_cons_skip (Value.dict xs) g rest b (by simp [fieldContains, hb]) hcg hgt]
            exact ih hf2

theorem checkRefundGo_dict_noviol (xs : List (String × Value)) (fields : List String)
    (h : ∀ f ∈ fields, ∀ a : ℚ, coerceField (Value.dict xs) f = some a → ¬ a > MAX_REFUND_AMOUNT) :
    checkRefundGo (Value.dict xs) fields = .ok (false, none) := by
  induction fields with
  | nil => rfl
  | cons g rest ih =>
    have hrest := fun f hf => h f (List.mem_cons_of_mem g hf)
    cases hb : (xs.any (fun kv => kv.1 == g)) with
    | false =>
      rw [checkRefundGo_cons_absent (Value.dict xs) g rest (by simp [fieldContains, hb])]
      exact ih hrest
    | true =>
      cases hcg : coerceField (Value.dict xs) g with
      | none =>
        rw [checkRefundGo_cons_nocoerce (Value.dict xs) g rest (by simp [fieldContains, hb]) hcg]
        exact ih hrest
      | some b =>
        rw [checkRefundGo_cons_skip (Value.dict xs) g rest b (by simp [fieldContains, hb]) hcg
          (h g (List.mem_cons_self g rest) b hcg)]
        exact ih hrest

theorem audit_scan_true (p : Value) (okw : Option String)
    (h : check_for_banned_keywords (pyStr p) = (true, okw)) :
    audit p = .ok (Verdict.blocked (bannedReason (fstrOptStr okw))) := by
  unfold audit
  rw [h]

theorem audit_scan_hit (p : Value) (kw : String)
    (h : check_for_banned_keywords (pyStr p) = (true, some kw)) :
    audit p = .ok (Verdict.blocked (bannedReason kw)) :=
  audit_scan_true p (some kw) h

theorem audit_scan_false_refund (p : Value) (okw : Option String) (a : ℚ)
    (h : check_for_banned_keywords (pyStr p) = (false, okw))
    (hr : check_refund_amount p = .ok (true, some a)) :
    audit p = .ok (Verdict.blocked (refundReason a)) := by
  unfold audit
  rw [h, hr]

theorem audit_scan_false_ok (p : Value) (okw : Option String) (opt : Option ℚ)
    (h : check_for_banned_keywords (pyStr p) = (false, okw))
    (hr : check_refund_amount p = .ok (false, opt)) :
    audit p = .ok Verdict.approved := by
  unfold audit
  rw [h, hr]

theorem audit_scan_false_err (p : Value) (okw : Option String) (e : Unit)
    (h : check_for_banned_keywords (pyStr p) = (false, okw))
    (hr : check_refund_amount p = .error e) :
    audit p = .error e := by
  unfold audit
  rw [h, hr]

theorem bannedReason_ne_refundReason (k : String) (b : ℚ) :
    bannedReason k ≠ refundReason b := by
  intro h
  have hd : (bannedReason k).data.head? = (refundReason b).data.head? := by rw [h]
  have h1 : (bannedReason k).data.head? = some 'B' := rfl
  have h2 : (refundReason b).data.head? = some 'R' := rfl
  rw [h1, h2] at hd
  exact absurd hd (by decide)

/-! ### Claims -/

/-- C1, counterexample: the claim says audit returns APPROVED or BLOCKED for
EVERY well-formed JSON tree, including a number at top level.  It does not:
for the payload `5` the keyword scan passes, and then the membership test
`'refund_amount' in 5` raises an uncaught `TypeError` (it sits outside the
try/except of `check_refund_amount`), so no verdict is produced. -/
theorem c1_counterexample : audit (Value.num (5)) = Except.error () := rfl

/-- C1, amended: for every payload whose top level is a mapping, a list or a
string, audit returns APPROVED or BLOCKED and never raises; top-level
numbers, booleans and null are excluded because the membership test raises
`TypeError` outside the try/except. -/
theorem c1_amended_total (p : Value) (h : isContainerTop p = true) :
    audit p = .ok Verdict.approved ∨ ∃ r, audit p = .ok (Verdict.blocked r) := by
  rcases hscan : check_for_banned_keywords (pyStr p) with ⟨b, okw⟩
  cases b with
  | true => exact Or.inr ⟨bannedReason (fstrOptStr okw), audit_scan_true p okw hscan⟩
  | false =>
    cases p with
    | str s =>
      exact Or.inl (audit_scan_false_ok _ okw none hscan (checkRefundGo_str s refund_fields))
    | list xs =>
      exact Or.inl (audit_scan_false_ok _ okw none hscan (checkRefundGo_list xs refund_fields))
    | dict xs =>
      rcases checkRefundGo_dict_shape xs refund_fields with h0 | ⟨a, _, heq⟩
      · exact Or.inl (audit_scan_false_ok _ okw none hscan h0)
      · exact Or.inr ⟨refundReason a, audit_scan_false_refund _ okw a hscan heq⟩
    | num q => simp [isContainerTop] at h
    | bool bb => simp [isContainerTop] at h
    | null => simp [isContainerTop] at h

/-- C1, witness: the amended theorem applied to the string payload hello. -/
theorem c1_witness :
    audit (Value.str ("hello")) = .ok Verdict.approved
    ∨ ∃ r, audit (Value.str ("hello")) = .ok (Verdict.blocked r) :=
  c1_amended_total (Value.str ("hello")) rfl

/-- C2, counterexample: the claim says that once `refund_amount` holds a
within-limit number the evaluator reports no violation and stops.  On
`{"refund_amount":100,"refund":600}` the code instead keeps scanning and
reports the violation of the later alias. -/
theorem c2_counterexample :
    check_refund_amount (Value.dict mixedAliases) = .ok (true, some 600) := rfl

/-- C2, amended: the evaluator returns the first candidate alias whose value
coerces to a number OVER the limit; a within-limit numeric value does not
stop evaluation, so an earlier within-limit alias does not shield a later
over-limit alias. -/
theorem c2_amended_alias_scan :
    (∀ (xs : List (String × Value)) (a : ℚ),
      dictLookup xs ("refund_amount") = some (Value.num a) → a > 500 →
      check_refund_amount (Value.dict xs) = .ok (true, some a))
    ∧ (∀ (xs : List (String × Value)) (a b : ℚ),
      dictLookup xs ("refund_amount") = some (Value.num a) → a ≤ 500 →
      dictLookup xs ("refund") = some (Value.num b) → b > 500 →
      check_refund_amount (Value.dict xs) = .ok (true, some b)) := by
  constructor
  · intro xs a ha hgt
    have hmem := any_of_dictLookup xs ("refund_amount") (Value.num a) ha
    have hco : coerceField (Value.dict xs) ("refund_amount") = some a := by
      show (dictLookup xs ("refund_amount")).bind pyFloat = some a
      rw [ha]; rfl
    exact checkRefundGo_cons_hit (Value.dict xs) ("refund_amount") (["refund", "amount"]) a
      (by simp [fieldContains, hmem]) hco hgt
  · intro xs a b ha hle hb hgt
    have hmemA := any_of_dictLookup xs ("refund_amount") (Value.num a) ha
    have hcoA : coerceField (Value.dict xs) ("refund_amount") = some a := by
      show (dictLookup xs ("refund_amount")).bind pyFloat = some a
      rw [ha]; rfl
    have hmemB := any_of_dictLookup xs ("refund") (Value.num b) hb
    have hcoB : coerceField (Value.dict xs) ("refund") = some b := by
      show (dictLookup xs ("refund")).bind pyFloat = some b
      rw [hb]; rfl
    have step1 : check_refund_amount (Value.dict xs)
        = checkRefundGo (Value.dict xs) (["refund", "amount"]) :=
      checkRefundGo_cons_skip (Value.dict xs) ("refund_amount") (["refund", "amount"]) a
        (by simp [fieldContains, hmemA]) hcoA (not_lt.mpr hle)
    have step2 : checkRefundGo (Value.dict xs) (["refund", "amount"]) = .ok (true, some b) :=
      checkRefundGo_cons_hit (Value.dict xs) ("refund") (["amount"]) b
        (by simp [fieldContains, hmemB]) hcoB hgt
    exact step1.trans step2

/-- C2, witness: the amended theorem on `{"refund_amount":250,"refund":750}`. -/
theorem c2_witness :
    check_refund_amount (Value.dict mixedAliases2) = .ok (true, some 750) :=
  c2_amended_alias_scan.2 mixedAliases2 250 750 rfl (by decide) rfl (by decide)

/-- C3: whenever some banned phrase occurs case-insensitively in the
serialized payload, audit blocks with the reason naming the EARLIEST
matching phrase in policy order (every earlier phrase does not match —
the scan short-circuits at the first hit). -/
theorem c3_first_banned_phrase (p : Value)
    (h : ∃ kw ∈ BANNED_KEYWORDS, strContains (pyLower (pyStr p)) (pyLower kw) = true) :
    ∃ kw pre post, BANNED_KEYWORDS = pre ++ kw :: post
      ∧ strContains (pyLower (pyStr p)) (pyLower kw) = true
      ∧ (∀ k2 ∈ pre, strContains (pyLower (pyStr p)) (pyLower k2) = false)
      ∧ audit p = .ok (Verdict.blocked (bannedReason kw)) := by
  obtain ⟨k, hk, hm⟩ := h
  obtain ⟨kw, pre, post, hl, hm2, hpre, hscan⟩ :=
    scanKeywords_first (pyLower (pyStr p)) BANNED_KEYWORDS k hk hm
  exact ⟨kw, pre, post, hl, hm2, hpre, audit_scan_hit p kw hscan⟩

/-- C3, witness: scenario B, blocked on DROP TABLE. -/
theorem c3_witness :
    ∃ kw pre post, BANNED_KEYWORDS = pre ++ kw :: post
      ∧ strContains (pyLower (pyStr scenarioB)) (pyLower kw) = true
      ∧ (∀ k2 ∈ pre, strContains (pyLower (pyStr scenarioB)) (pyLower k2) = false)
      ∧ audit scenarioB = .ok (Verdict.blocked (bannedReason kw)) :=
  c3_first_banned_phrase scenarioB ⟨("DROP TABLE"), by decide, by decide⟩

/-- C4: a payload containing both a banned phrase and an over-limit
refund-like field is blocked with the banned-keyword reason and never with
the refund reason (the keyword scan runs first and short-circuits). -/
theorem c4_keyword_priority (p : Value) (kw f : String) (a : ℚ)
    (hkw : kw ∈ BANNED_KEYWORDS)
    (hmatch : strContains (pyLower (pyStr p)) (pyLower kw) = true)
    (_hf : f ∈ refund_fields) (_hc : coerceField p f = some a) (_ha : a > 500) :
    (∃ kw2, audit p = .ok (Verdict.blocked (bannedReason kw2)))
    ∧ ∀ b : ℚ, audit p ≠ .ok (Verdict.blocked (refundReason b)) := by
  obtain ⟨kw2, pre, post, _, _, _, hscan⟩ :=
    scanKeywords_first (pyLower (pyStr p)) BANNED_KEYWORDS kw hkw hmatch
  have haud := audit_scan_hit p kw2 hscan
  refine ⟨⟨kw2, haud⟩, ?_⟩
  intro b hb
  rw [haud] at hb
  simp only [Except.ok.injEq, Verdict.blocked.injEq] at hb
  exact bannedReason_ne_refundReason kw2 b hb

/-- C4, witness: `{"msg":"you idiot","refund":600}` is blocked for the
keyword, not the refund amount. -/
theorem c4_witness :
    (∃ kw2, audit payloadKwAndRefund = .ok (Verdict.blocked (bannedReason kw2)))
    ∧ audit payloadKwAndRefund ≠ .ok (Verdict.blocked (refundReason (600))) := by
  have h := c4_keyword_priority payloadKwAndRefund ("idiot") ("refund") 600 (by decide)
    (by decide) (by decide) rfl (by decide)
  exact ⟨h.1, h.2 600⟩

/-- C5: on a mapping payload with no banned phrase, a violation is reported
exactly when some candidate field coerces to an amount strictly over 500
(an amount of exactly 500 never violates, by the strict bound in the first
conjunct), and on violation audit blocks with the two-decimal reason. -/
theorem c5_refund_threshold (xs : List (String × Value))
    (hkw : ∀ kw ∈ BANNED_KEYWORDS,
      strContains (pyLower (pyStr (Value.dict xs))) (pyLower kw) = false) :
    (∀ a : ℚ, check_refund_amount (Value.dict xs) = .ok (true, some a) →
      a > 500 ∧ audit (Value.dict xs) = .ok (Verdict.blocked (refundReason a)))
    ∧ (∀ f ∈ refund_fields, ∀ a : ℚ, coerceField (Value.dict xs) f = some a → a > 500 →
      ∃ b : ℚ, b > 500 ∧ check_refund_amount (Value.dict xs) = .ok (true, some b)) := by
  have hscan : check_for_banned_keywords (pyStr (Value.dict xs)) = (false, none) :=
    scanKeywords_none (pyLower (pyStr (Value.dict xs))) BANNED_KEYWORDS hkw
  constructor
  · intro a hcheck
    rcases checkRefundGo_dict_shape xs refund_fields with h0 | ⟨b, hbgt, heq⟩
    · rw [check_refund_amount, h0] at hcheck
      exact absurd hcheck (by simp)
    · have hab : b = a := by
        rw [check_refund_amount, heq] at hcheck
        simp only [Except.ok.injEq, Prod.mk.injEq, Option.some.injEq, true_and] at hcheck
        exact hcheck
      subst hab
      exact ⟨hbgt, audit_scan_false_refund (Value.dict xs) none b hscan hcheck⟩
  · intro f hf a hca hgt
    exact checkRefundGo_dict_viol xs refund_fields f a hf hca hgt

/-- C5, witness: scenario C, blocked with the amount 750 formatted to two
decimal places. -/
theorem c5_witness :
    (750 : ℚ) > 500
    ∧ audit (Value.dict scenarioC) = .ok (Verdict.blocked (refundReason (750))) :=
  (c5_refund_threshold scenarioC (by decide)).1 750 rfl

/-- C6, counterexample: the claim quantifies over EVERY payload with no
banned phrase and no over-limit refund field, promising APPROVED.  The
payload `7` satisfies both hypotheses (nothing matches in the text `7`, and
there are no fields at all), yet audit raises `TypeError` instead of
approving. -/
theorem c6_counterexample :
    check_for_banned_keywords (pyStr (Value.num (7))) = (false, none)
    ∧ audit (Value.num (7)) = Except.error () := ⟨rfl, rfl⟩

/-- C6, amended: restricted to payloads whose top level is a mapping, a list
or a string, no banned phrase plus no over-limit candidate field yields
APPROVED (whose constructor carries no reason field). -/
theorem c6_amended_approved (p : Value) (hc : isContainerTop p = true)
    (hkw : ∀ kw ∈ BANNED_KEYWORDS, strContains (pyLower (pyStr p)) (pyLower kw) = false)
    (hfr : ∀ f ∈ refund_fields, ∀ a : ℚ, coerceField p f = some a → a ≤ 500) :
    audit p = .ok Verdict.approved := by
  have hscan : check_for_banned_keywords (pyStr p) = (false, none) :=
    scanKeywords_none (pyLower (pyStr p)) BANNED_KEYWORDS hkw
  cases p with
  | str s => exact audit_scan_false_ok _ none none hscan (checkRefundGo_str s refund_fields)
  | list xs => exact audit_scan_false_ok _ none none hscan (checkRefundGo_list xs refund_fields)
  | dict xs =>
    refine audit_scan_false_ok _ none none hscan (checkRefundGo_dict_noviol xs refund_fields ?_)
    intro f hf a hca
    exact not_lt.mpr (hfr f hf a hca)
  | num q => simp [isContainerTop] at hc
  | bool b => simp [isContainerTop] at hc
  | null => simp [isContainerTop] at hc

/-- C6, witness: scenario A is approved. -/
theorem c6_witness : audit scenarioA = .ok Verdict.approved := by
  refine c6_amended_approved scenarioA rfl (by decide) ?_
  intro f hf a hca
  have hf2 : f = "refund_amount" ∨ f = "refund" ∨ f = "amount" := by
    simpa [refund_fields] using hf
  rcases hf2 with rfl | rfl | rfl
  · rw [show coerceField scenarioA ("refund_amount") = none from rfl] at hca
    exact Option.noConfusion hca
  · rw [show coerceField scenarioA ("refund") = some (50 : ℚ) from rfl] at hca
    obtain rfl : (50 : ℚ) = a := Option.some.inj hca
    decide
  · rw [show coerceField scenarioA ("amount") = none from rfl] at hca
    exact Option.noConfusion hca

/-- C7: a candidate field that is present but not coercible to a number is
skipped — the loop state after it equals the loop state starting from the
remaining field names — and on scenario E audit blocks via the `refund`
field with the reason naming 600 and 500. -/
theorem c7_skip_noncoercible :
    (∀ (data : Value) (f : String) (rest : List String),
      fieldContains data f = .ok true → coerceField data f = none →
      checkRefundGo data (f :: rest) = checkRefundGo data rest)
    ∧ audit scenarioE = .ok (Verdict.blocked ("Refund amount $600.00 exceeds maximum of $500")) := by
  constructor
  · intro data f rest h1 h2
    exact checkRefundGo_cons_nocoerce data f rest h1 h2
  · rfl

/-- C7, witness: on scenario E the present-but-non-numeric `refund_amount`
field is skipped and evaluation continues with the remaining aliases. -/
theorem c7_witness :
    checkRefundGo scenarioE (("refund_amount") :: ["refund", "amount"])
      = checkRefundGo scenarioE (["refund", "amount"]) :=
  c7_skip_noncoercible.1 scenarioE ("refund_amount") (["refund", "amount"]) rfl rfl

/-- C8, counterexample: the claim says EVERY non-mapping top level yields a
structured no-violation result without error, but on the payload `true` the
membership test `'refund_amount' in True` raises `TypeError` (outside the
try/except). -/
theorem c8_counterexample :
    check_refund_amount (Value.bool true) = Except.error () := rfl

/-- C8, amended: a non-mapping top level that supports membership (string or
list) yields the structured no-violation result `(False, None)`; numbers,
booleans and null make the membership test raise `TypeError`. -/
theorem c8_amended_nonmapping :
    (∀ s, check_refund_amount (Value.str s) = .ok (false, none))
    ∧ (∀ xs, check_refund_amount (Value.list xs) = .ok (false, none))
    ∧ (∀ q, check_refund_amount (Value.num q) = Except.error ())
    ∧ (∀ b, check_refund_amount (Value.bool b) = Except.error ())
    ∧ check_refund_amount Value.null = Except.error () :=
  ⟨fun s => checkRefundGo_str s refund_fields, fun xs => checkRefundGo_list xs refund_fields,
   fun _ => rfl, fun _ => rfl, rfl⟩

/-- C9: audit is a pure function of the payload and the fixed policy — in a
request sequence, the verdict for a payload does not depend on the requests
served before it, and two consecutive identical requests get identical
verdicts. -/
theorem c9_pure_idempotent (prior : List Value) (p : Value) :
    processRequests (prior ++ [p, p]) = processRequests prior ++ [audit p, audit p] := by
  induction prior with
  | nil => rfl
  | cons q rest ih => simp only [List.cons_append, processRequests, List.append_eq, ih]

/-- C10: a top-level string or list never yields a refund violation or an
error — the membership test can succeed (as the concrete conjuncts show) but
the subscript raises `TypeError`, which is caught and treated as
skip-this-field. -/
theorem c10_membership_without_subscript :
    (∀ s, check_refund_amount (Value.str s) = .ok (false, none))
    ∧ (∀ xs, check_refund_amount (Value.list xs) = .ok (false, none))
    ∧ fieldContains strWithRefund ("refund") = .ok true
    ∧ coerceField strWithRefund ("refund") = none
    ∧ fieldContains listWithAmount ("amount") = .ok true
    ∧ coerceField listWithAmount ("amount") = none :=
  ⟨fun s => checkRefundGo_str s refund_fields, fun xs => checkRefundGo_list xs refund_fields,
   rfl, rfl, rfl, rfl⟩
